import Mathlib

/-!
Shallow embedding of the Revolt voice-relay server (`src/server/index.js`).

The server relays audio between a browser client and the Gemini Live API:
per client WebSocket it keeps one record in the global `activeConnections`
map, opens one upstream (Gemini) WebSocket, performs a setup handshake, and
forwards frames in both directions.  We embed the connection registry, the
four message handlers (`handleAudioInput`, `handleClientMessage`,
`handleGeminiMessage`, `cleanupConnection`), session initialisation
(`initializeGeminiSession`), the idle reaper and the connection-id
generator as pure Lean functions over an explicit server state.

Sockets are modelled as a ready-state plus the list of messages passed to
`send` so far; `ws.send` appends to that list.  Time (`Date.now()`) and the
random bytes of `crypto.randomBytes` are passed in explicitly.
-/

namespace RevoltRelay

/-- WebSocket ready states (the `ws` library constants). -/
inductive SockState where
  | CONNECTING | OPEN | CLOSING | CLOSED
deriving DecidableEq, Repr

/-- A socket handle: its ready state and the messages passed to `send` so
far, in call order.  `send` never blocks and always records the message. -/
structure Socket (α : Type) where
  readyState : SockState
  sent : List α
deriving DecidableEq, Repr

/-- `ws.send m`: appends `m` to the socket's send log. -/
def Socket.send {α : Type} (ws : Socket α) (m : α) : Socket α :=
  { ws with sent := ws.sent ++ [m] }

/-- `ws.close()`: the socket leaves the OPEN state. -/
def Socket.close {α : Type} (ws : Socket α) : Socket α :=
  { ws with readyState := SockState.CLOSED }

/-- Messages the server sends to a client over its WebSocket.  JSON control
frames are distinct constructors (they serialise to distinct `type` tags in
the source); `audio` is a binary frame whose bytes are
`Buffer.from(dataB64, "base64")` — we carry the base64 text the bytes were
decoded from. -/
inductive ClientEvent where
  | errorMsg (message : String)
  | connectionStatus (status : String) (connectionId : Option String)
      (message : Option String)
  | audio (dataB64 : String)
  | generationComplete
  | interrupted
  | turnComplete
  | pong
deriving DecidableEq, Repr

/-- Messages the server sends to the upstream Gemini socket.  `setup`
carries the model identifier (its generation config, system instruction and
realtime-input config are fixed constants in the source and are not
inspected by any claim, so the envelope is keyed by the model). -/
inductive GeminiOut where
  | setup (model : String)
  | realtimeAudio (mimeType : String) (dataB64 : String)
  | activityStart
  | audioStreamEnd
deriving DecidableEq, Repr

/-- One value stored in `activeConnections` (source lines 93–99):
`{ clientWs, geminiWs, connected: false, lastActivity: Date.now(),
isGenerating: false }`. -/
structure Conn where
  clientWs : Socket ClientEvent
  geminiWs : Socket GeminiOut
  connected : Bool
  lastActivity : Nat
  isGenerating : Bool
deriving DecidableEq, Repr

/-- The registry `activeConnections : Map` as an association list with
JS-`Map` semantics (at most one live binding per key on reachable states),
plus instrumentation for effects the claims observe: how many upstream
sockets were constructed (`new WebSocket(...)`) and which connection ids
had their Gemini socket `close()`d by `cleanupConnection`. -/
structure ServerState where
  activeConnections : List (String × Conn)
  geminiSocketsCreated : Nat
  geminiCloseCalls : List String
deriving DecidableEq, Repr

/-- `activeConnections.get(id)`. -/
def lookupConn : List (String × Conn) → String → Option Conn
  | [], _ => none
  | (k, v) :: m, id => if k = id then some v else lookupConn m id

/-- `activeConnections.set(id, c)`: replace the binding if present,
otherwise append. -/
def setConn (m : List (String × Conn)) (id : String) (c : Conn) :
    List (String × Conn) :=
  if (lookupConn m id).isSome then
    m.map (fun p => if p.1 = id then (id, c) else p)
  else
    m ++ [(id, c)]

/-- `activeConnections.delete(id)`. -/
def eraseConn (m : List (String × Conn)) (id : String) :
    List (String × Conn) :=
  m.filter (fun p => decide (p.1 ≠ id))

/-- The configuration-error text sent when `GEMINI_API_KEY` is missing. -/
def missingKeyMessage : String :=
  "Server is missing Gemini API key. Ask the administrator to set GEMINI_API_KEY."

/-- `initializeGeminiSession(connectionId, clientWs)` — the synchronous
part, lines 68–99 of the source.  `apiKey` is the resolved
`GEMINI_API_KEY` (first non-empty of the three env fallbacks) and `now` is
`Date.now()` at registration time.  With no key: log, send one error event
to the client if it is open, and return without creating an upstream
socket or registry entry.  With a key: construct the upstream socket
(initially CONNECTING; its `open` callback fires later) and insert the
record with `connected: false`.  Returns the client socket (updated in the
no-key path, otherwise moved into the record unchanged) and the new state. -/
def initializeGeminiSession (apiKey : Option String) (connectionId : String)
    (clientWs : Socket ClientEvent) (now : Nat) (s : ServerState) :
    Socket ClientEvent × ServerState :=
  match apiKey with
  | none =>
    let clientWs :=
      if clientWs.readyState = SockState.OPEN then
        clientWs.send (ClientEvent.errorMsg missingKeyMessage)
      else clientWs
    (clientWs, s)
  | some _ =>
    let geminiWs : Socket GeminiOut := { readyState := SockState.CONNECTING, sent := [] }
    let record : Conn :=
      { clientWs := clientWs
        geminiWs := geminiWs
        connected := false
        lastActivity := now
        isGenerating := false }
    (clientWs,
      { s with
        activeConnections := setConn s.activeConnections connectionId record
        geminiSocketsCreated := s.geminiSocketsCreated + 1 })

/-- The `geminiWs.on("open")` callback (lines 101–161): the upstream
socket becomes OPEN and the one-time setup envelope is sent on it. -/
def handleGeminiOpen (model : String) (connectionId : String)
    (s : ServerState) : ServerState :=
  match lookupConn s.activeConnections connectionId with
  | none => s
  | some conn =>
    let conn :=
      { conn with
        geminiWs :=
          (Socket.mk SockState.OPEN conn.geminiWs.sent).send (GeminiOut.setup model) }
    { s with activeConnections := setConn s.activeConnections connectionId conn }

/-- One part of `serverContent.modelTurn.parts`: optionally `inlineData`
with a MIME type and base64 data. -/
structure TurnPart where
  inlineData : Option (String × String)
deriving DecidableEq, Repr

/-- The `serverContent` field of an upstream message. -/
structure ServerContent where
  modelTurn : Option (List TurnPart)
  generationComplete : Bool
  interrupted : Bool
  turnComplete : Bool
deriving DecidableEq, Repr

/-- A parsed upstream (Gemini) message, with the fields the server reads. -/
structure GeminiMessage where
  setupComplete : Bool
  serverContent : Option ServerContent
deriving DecidableEq, Repr

/-- Sends the decoded audio of one model-turn part to the client if the
part carries `inlineData` with an `audio/` MIME type (lines 230–238). -/
def forwardPart (conn : Conn) (p : TurnPart) : Conn :=
  match p.inlineData with
  | some (mimeType, data) =>
    if mimeType.startsWith "audio/" then
      { conn with clientWs := conn.clientWs.send (ClientEvent.audio data) }
    else conn
  | none => conn

/-- The `message.setupComplete` branch of `handleGeminiMessage` (lines
214–224): mark the record connected and notify the client. -/
def applySetupComplete (connectionId : String) (message : GeminiMessage)
    (conn : Conn) : Conn :=
  if message.setupComplete then
    { conn with
      connected := true
      clientWs := conn.clientWs.send
        (ClientEvent.connectionStatus "connected" (some connectionId) none) }
  else conn

/-- The generation-status part of the `serverContent` branch (lines
240–266): each of the three signals clears `isGenerating` and forwards its
typed event, in source order. -/
def applyStatusSignals (content : ServerContent) (conn : Conn) : Conn :=
  let conn :=
    if content.generationComplete then
      { conn with
        isGenerating := false
        clientWs := conn.clientWs.send ClientEvent.generationComplete }
    else conn
  let conn :=
    if content.interrupted then
      { conn with
        isGenerating := false
        clientWs := conn.clientWs.send ClientEvent.interrupted }
    else conn
  if content.turnComplete then
    { conn with
      isGenerating := false
      clientWs := conn.clientWs.send ClientEvent.turnComplete }
  else conn

/-- The whole `message.serverContent` branch (lines 226–267): forward
inline audio of the model turn, then the status signals. -/
def applyServerContent (content : ServerContent) (conn : Conn) : Conn :=
  applyStatusSignals content
    (match content.modelTurn with
      | some parts => parts.foldl forwardPart conn
      | none => conn)

/-- `handleGeminiMessage(connectionId, message)` (lines 210–268): ignore
the message unless the record exists and the client socket is open; on
`setupComplete` mark the record connected and notify the client; on
`serverContent` forward inline audio parts and the three generation-status
signals, clearing `isGenerating` on each. -/
def handleGeminiMessage (connectionId : String) (message : GeminiMessage)
    (s : ServerState) : ServerState :=
  match lookupConn s.activeConnections connectionId with
  | none => s
  | some conn =>
    if conn.clientWs.readyState ≠ SockState.OPEN then s
    else
      let conn1 := applySetupComplete connectionId message conn
      let conn2 :=
        match message.serverContent with
        | none => conn1
        | some content => applyServerContent content conn1
      { s with activeConnections := setConn s.activeConnections connectionId conn2 }

/-- The `geminiWs.on("close")` callback (lines 172–184): the upstream
socket is now closed; if the record exists and the client socket is open,
notify the client with a disconnected status event. -/
def handleGeminiClose (connectionId : String) (s : ServerState) : ServerState :=
  match lookupConn s.activeConnections connectionId with
  | none => s
  | some conn =>
    let conn := { conn with geminiWs := conn.geminiWs.close }
    let conn :=
      if conn.clientWs.readyState = SockState.OPEN then
        { conn with
          clientWs := conn.clientWs.send
            (ClientEvent.connectionStatus "disconnected" none
              (some "Gemini session ended")) }
      else conn
    { s with activeConnections := setConn s.activeConnections connectionId conn }

/-- The `geminiWs.on("error")` callback (lines 186–197): notify the client
with a generic upstream-failure error event if the record exists and the
client socket is open. -/
def handleGeminiError (connectionId : String) (s : ServerState) : ServerState :=
  match lookupConn s.activeConnections connectionId with
  | none => s
  | some conn =>
    if conn.clientWs.readyState = SockState.OPEN then
      let conn :=
        { conn with
          clientWs := conn.clientWs.send
            (ClientEvent.errorMsg "Gemini connection failed") }
      { s with activeConnections := setConn s.activeConnections connectionId conn }
    else s

/-- The base64 alphabet, `A–Z a–z 0–9 + /`, as indexed by
`Buffer.toString("base64")`. -/
def base64Char (n : Nat) : Char :=
  if n < 26 then Char.ofNat (65 + n)
  else if n < 52 then Char.ofNat (97 + (n - 26))
  else if n < 62 then Char.ofNat (48 + (n - 52))
  else if n = 62 then '+'
  else '/'

/-- RFC 4648 base64 of a byte list, with `=` padding — the encoding
`Buffer.toString("base64")` produces. -/
def base64encodeChars : List Nat → List Char
  | [] => []
  | [b1] =>
    [base64Char (b1 / 4), base64Char (b1 % 4 * 16), '=', '=']
  | [b1, b2] =>
    [base64Char (b1 / 4), base64Char (b1 % 4 * 16 + b2 / 16),
     base64Char (b2 % 16 * 4), '=']
  | b1 :: b2 :: b3 :: rest =>
    base64Char (b1 / 4) :: base64Char (b1 % 4 * 16 + b2 / 16) ::
    base64Char (b2 % 16 * 4 + b3 / 64) :: base64Char (b3 % 64) ::
    base64encodeChars rest

/-- `audioData.toString("base64")`. -/
def base64encode (bytes : List Nat) : String :=
  String.mk (base64encodeChars bytes)

/-- `handleAudioInput(connectionId, audioData)` (lines 271–291): drop the
frame unless the record exists, is `connected`, and the upstream socket is
OPEN; otherwise stamp `lastActivity` with `Date.now()` (`now`) and send
the base64 audio envelope upstream. -/
def handleAudioInput (connectionId : String) (audioData : List Nat)
    (now : Nat) (s : ServerState) : ServerState :=
  match lookupConn s.activeConnections connectionId with
  | none => s
  | some conn =>
    if conn.connected = false then s
    else if conn.geminiWs.readyState ≠ SockState.OPEN then s
    else
      let conn :=
        { conn with
          lastActivity := now
          geminiWs := conn.geminiWs.send
            (GeminiOut.realtimeAudio "audio/pcm" (base64encode audioData)) }
      { s with activeConnections := setConn s.activeConnections connectionId conn }

/-- A parsed non-audio client message: the server only reads its `type`. -/
structure ClientMessage where
  type : String
deriving DecidableEq, Repr

/-- `handleClientMessage(connectionId, message)` (lines 294–330): no-op if
the record is absent; `ping` replies `pong` to the client; `interrupt` and
`audio_stream_end` forward their signals upstream when the upstream socket
is open; any other type is only logged. -/
def handleClientMessage (connectionId : String) (message : ClientMessage)
    (s : ServerState) : ServerState :=
  match lookupConn s.activeConnections connectionId with
  | none => s
  | some conn =>
    if message.type = "ping" then
      let conn := { conn with clientWs := conn.clientWs.send ClientEvent.pong }
      { s with activeConnections := setConn s.activeConnections connectionId conn }
    else if message.type = "interrupt" then
      if conn.geminiWs.readyState = SockState.OPEN then
        let conn :=
          { conn with geminiWs := conn.geminiWs.send GeminiOut.activityStart }
        { s with activeConnections := setConn s.activeConnections connectionId conn }
      else s
    else if message.type = "audio_stream_end" then
      if conn.geminiWs.readyState = SockState.OPEN then
        let conn :=
          { conn with geminiWs := conn.geminiWs.send GeminiOut.audioStreamEnd }
        { s with activeConnections := setConn s.activeConnections connectionId conn }
      else s
    else s

/-- `cleanupConnection(connectionId)` (lines 333–341): if the record
exists, close its Gemini socket when it is OPEN (recorded in
`geminiCloseCalls`) and delete the registry entry; absent ids are no-ops. -/
def cleanupConnection (connectionId : String) (s : ServerState) : ServerState :=
  match lookupConn s.activeConnections connectionId with
  | none => s
  | some conn =>
    { activeConnections := eraseConn s.activeConnections connectionId
      geminiSocketsCreated := s.geminiSocketsCreated
      geminiCloseCalls :=
        if conn.geminiWs.readyState = SockState.OPEN then
          s.geminiCloseCalls ++ [connectionId]
        else s.geminiCloseCalls }

/-- The reaper's inactivity threshold: `5 * 60 * 1000` ms. -/
def reapTimeout : Nat := 5 * 60 * 1000

/-- The ids the idle-reaper sweep examines and tears down: exactly the
registered connections whose `lastActivity` is more than the timeout
before `now` (lines 376–386). -/
def staleIds (now : Nat) (s : ServerState) : List String :=
  (s.activeConnections.filter
    (fun p => decide (reapTimeout < now - p.2.lastActivity))).map Prod.fst

/-- One sweep of the idle reaper (`setInterval` body, lines 376–386):
`cleanupConnection` on every stale id. -/
def reapInactive (now : Nat) (s : ServerState) : ServerState :=
  (staleIds now s).foldl (fun s id => cleanupConnection id s) s

/-- The `/stats` snapshot (lines 361–373): `{id, connected, isGenerating,
lastActivity}` for every registry entry. -/
def statsSnapshot (s : ServerState) : List (String × Bool × Bool × Nat) :=
  s.activeConnections.map (fun p => (p.1, p.2.connected, p.2.isGenerating, p.2.lastActivity))

/-- The map word of one decimal digit, as `${n}` prints it. -/
def decDigitChar (d : Nat) : Char :=
  Char.ofNat (48 + d)

/-- The decimal rendering of a Nat, most-significant digit first — the
embedding of the JS template interpolation `${Date.now()}`. -/
def natToDecimal (n : Nat) : List Char :=
  ((Nat.digits 10 n).reverse).map decDigitChar

/-- One hex digit, lowercase, as `Buffer.toString("hex")` prints it. -/
def hexDigitChar (d : Nat) : Char :=
  if d < 10 then Char.ofNat (48 + d) else Char.ofNat (97 + (d - 10))

/-- The two hex characters of one byte. -/
def byteToHex (b : Nat) : List Char :=
  [hexDigitChar (b / 16 % 16), hexDigitChar (b % 16)]

/-- `crypto.randomBytes(4).toString("hex")`. -/
def bytesToHex (bs : List Nat) : List Char :=
  (bs.map byteToHex).flatten

/-- `generateConnectionId()` (lines 344–346):
`conn_${Date.now()}_${crypto.randomBytes(4).toString("hex")}`, with the
current time and the drawn random bytes passed in explicitly. -/
def generateConnectionId (now : Nat) (randBytes : List Nat) : String :=
  String.mk
    (("conn_".data ++ natToDecimal now) ++ ('_' :: bytesToHex randBytes))

/-- The id of the `i`-th client connection in one process lifetime, where
`env i` is the pair (`Date.now()` value, `crypto.randomBytes(4)` draw) the
runtime supplies to that connection's `generateConnectionId` call. -/
def connectionIdOf (env : Nat → Nat × List Nat) (i : Nat) : String :=
  generateConnectionId (env i).1 (env i).2

/-- A client sending a sequence of binary frames, each tagged with its
receipt time: the server handles them one after the other. -/
def processAudioFrames (connectionId : String) (frames : List (List Nat × Nat))
    (s : ServerState) : ServerState :=
  frames.foldl (fun s fd => handleAudioInput connectionId fd.1 fd.2 s) s

/-- An upstream message carrying only `serverContent.generationComplete`. -/
def genCompleteMsg : GeminiMessage :=
  { setupComplete := false
    serverContent := some
      { modelTurn := none, generationComplete := true
        interrupted := false, turnComplete := false } }

/-- An upstream message carrying only `serverContent.interrupted`. -/
def interruptedMsg : GeminiMessage :=
  { setupComplete := false
    serverContent := some
      { modelTurn := none, generationComplete := false
        interrupted := true, turnComplete := false } }

/-- An upstream message carrying only `serverContent.turnComplete`. -/
def turnCompleteMsg : GeminiMessage :=
  { setupComplete := false
    serverContent := some
      { modelTurn := none, generationComplete := false
        interrupted := false, turnComplete := true } }

/-- An upstream message carrying only `setupComplete`. -/
def setupCompleteMsg : GeminiMessage :=
  { setupComplete := true, serverContent := none }

/-! Concrete fixtures used to evaluate the theorems on closed inputs. -/

/-- An open client socket with an empty send log. -/
def wsOpen : Socket ClientEvent := { readyState := SockState.OPEN, sent := [] }

/-- An open upstream socket with an empty send log. -/
def gwsOpen : Socket GeminiOut := { readyState := SockState.OPEN, sent := [] }

/-- A registered record whose setup handshake has not completed. -/
def connNotReady : Conn :=
  { clientWs := wsOpen, geminiWs := gwsOpen, connected := false
    lastActivity := 0, isGenerating := false }

/-- A registered record past the setup handshake. -/
def connReady : Conn :=
  { clientWs := wsOpen, geminiWs := gwsOpen, connected := true
    lastActivity := 0, isGenerating := true }

/-- The empty server state. -/
def state0 : ServerState :=
  { activeConnections := [], geminiSocketsCreated := 0, geminiCloseCalls := [] }

/-- A server with one not-yet-ready connection `c1`. -/
def state1 : ServerState :=
  { activeConnections := [("c1", connNotReady)], geminiSocketsCreated := 1
    geminiCloseCalls := [] }

/-- A server with one ready connection `c1`. -/
def state2 : ServerState :=
  { activeConnections := [("c1", connReady)], geminiSocketsCreated := 1
    geminiCloseCalls := [] }

/-- Every event the server reacts to that can touch the registry: a new
client connection (with the configured key, the client socket and the
current time), the upstream socket callbacks, inbound client frames,
client close/error (both run `cleanupConnection`), and a reaper sweep. -/
inductive Event where
  | newConnection (id : String) (apiKey : Option String)
      (ws : Socket ClientEvent) (now : Nat)
  | geminiOpen (model : String) (id : String)
  | geminiMsg (id : String) (m : GeminiMessage)
  | geminiClose (id : String)
  | geminiError (id : String)
  | clientAudio (id : String) (data : List Nat) (now : Nat)
  | clientMsg (id : String) (m : ClientMessage)
  | clientClose (id : String)
  | reap (now : Nat)

/-- The server's reaction to one event. -/
def step (s : ServerState) (e : Event) : ServerState :=
  match e with
  | .newConnection id key ws now => (initializeGeminiSession key id ws now s).2
  | .geminiOpen model id => handleGeminiOpen model id s
  | .geminiMsg id m => handleGeminiMessage id m s
  | .geminiClose id => handleGeminiClose id s
  | .geminiError id => handleGeminiError id s
  | .clientAudio id d now => handleAudioInput id d now s
  | .clientMsg id m => handleClientMessage id m s
  | .clientClose id => cleanupConnection id s
  | .reap now => reapInactive now s

/-! ### Registry lemmas -/

theorem lookupConn_nil (id : String) : lookupConn [] id = none := rfl

theorem lookupConn_cons (k : String) (v : Conn) (m : List (String × Conn))
    (id : String) :
    lookupConn ((k, v) :: m) id = if k = id then some v else lookupConn m id := rfl

theorem lookupConn_eq_none_iff (m : List (String × Conn)) (id : String) :
    lookupConn m id = none ↔ ∀ p ∈ m, p.1 ≠ id := by
  induction m with
  | nil => simp [lookupConn_nil]
  | cons a m ih =>
    obtain ⟨k, v⟩ := a
    rw [lookupConn_cons]
    by_cases h : k = id <;> simp [h, ih]

theorem lookupConn_map_replace_self (m : List (String × Conn)) (id : String)
    (c : Conn) (h : (lookupConn m id).isSome = true) :
    lookupConn (m.map (fun p => if p.1 = id then (id, c) else p)) id = some c := by
  induction m with
  | nil => simp [lookupConn_nil] at h
  | cons a m ih =>
    obtain ⟨k, v⟩ := a
    by_cases hk : k = id
    · simp [hk, lookupConn_cons]
    · have hm : (lookupConn m id).isSome = true := by
        rw [lookupConn_cons, if_neg hk] at h; exact h
      simp only [List.map_cons]
      rw [show (if ((k, v).1 = id) then (id, c) else (k, v)) = (k, v) by
        simp [hk]]
      rw [lookupConn_cons, if_neg hk]
      exact ih hm

theorem lookupConn_map_replace_ne (m : List (String × Conn)) (id id' : String)
    (c : Conn) (h : id' ≠ id) :
    lookupConn (m.map (fun p => if p.1 = id then (id, c) else p)) id' =
      lookupConn m id' := by
  induction m with
  | nil => rfl
  | cons a m ih =>
    obtain ⟨k, v⟩ := a
    by_cases hk : k = id
    · simp only [List.map_cons]
      rw [show (if ((k, v).1 = id) then (id, c) else (k, v)) = (id, c) by
        simp [hk]]
      rw [lookupConn_cons, lookupConn_cons]
      have h1 : ¬ id = id' := fun hc => h hc.symm
      have h2 : ¬ k = id' := by rw [hk]; exact h1
      rw [if_neg h1, if_neg h2]
      exact ih
    · simp only [List.map_cons]
      rw [show (if ((k, v).1 = id) then (id, c) else (k, v)) = (k, v) by
        simp [hk]]
      rw [lookupConn_cons, lookupConn_cons]
      by_cases hk' : k = id'
      · simp [hk']
      · rw [if_neg hk', if_neg hk']
        exact ih

theorem lookupConn_append_single_self (m : List (String × Conn)) (id : String)
    (c : Conn) (h : lookupConn m id = none) :
    lookupConn (m ++ [(id, c)]) id = some c := by
  induction m with
  | nil => simp [lookupConn_cons]
  | cons a m ih =>
    obtain ⟨k, v⟩ := a
    rw [lookupConn_cons] at h
    by_cases hk : k = id
    · simp [hk] at h
    · rw [if_neg hk] at h
      rw [List.cons_append, lookupConn_cons, if_neg hk]
      exact ih h

theorem lookupConn_append_single_ne (m : List (String × Conn)) (id id' : String)
    (c : Conn) (h : id' ≠ id) :
    lookupConn (m ++ [(id, c)]) id' = lookupConn m id' := by
  induction m with
  | nil =>
    rw [List.nil_append, lookupConn_cons, lookupConn_nil]
    rw [if_neg (fun hc => h hc.symm)]
  | cons a m ih =>
    obtain ⟨k, v⟩ := a
    rw [List.cons_append, lookupConn_cons, lookupConn_cons]
    by_cases hk : k = id'
    · simp [hk]
    · rw [if_neg hk, if_neg hk]
      exact ih

theorem lookupConn_setConn_self (m : List (String × Conn)) (id : String)
    (c : Conn) : lookupConn (setConn m id c) id = some c := by
  unfold setConn
  by_cases h : (lookupConn m id).isSome
  · rw [if_pos h]
    exact lookupConn_map_replace_self m id c h
  · rw [if_neg h]
    exact lookupConn_append_single_self m id c (by
      cases hl : lookupConn m id with
      | none => rfl
      | some v => rw [hl] at h; simp at h)

theorem lookupConn_setConn_ne (m : List (String × Conn)) (id id' : String)
    (c : Conn) (h : id' ≠ id) :
    lookupConn (setConn m id c) id' = lookupConn m id' := by
  unfold setConn
  by_cases hany : (lookupConn m id).isSome
  · rw [if_pos hany]
    exact lookupConn_map_replace_ne m id id' c h
  · rw [if_neg hany]
    exact lookupConn_append_single_ne m id id' c h

theorem lookupConn_eraseConn_self (m : List (String × Conn)) (id : String) :
    lookupConn (eraseConn m id) id = none := by
  rw [lookupConn_eq_none_iff]
  intro p hp
  have := List.of_mem_filter hp
  simpa using this

theorem lookupConn_eraseConn_ne (m : List (String × Conn)) (id id' : String)
    (h : id' ≠ id) :
    lookupConn (eraseConn m id) id' = lookupConn m id' := by
  induction m with
  | nil => rfl
  | cons a m ih =>
    obtain ⟨k, v⟩ := a
    by_cases hk : k = id
    · have h2 : ¬ k = id' := by rw [hk]; exact fun hc => h hc.symm
      have he : eraseConn ((k, v) :: m) id = eraseConn m id := by
        simp [eraseConn, List.filter_cons, hk]
      rw [he, lookupConn_cons, if_neg h2]
      exact ih
    · have he : eraseConn ((k, v) :: m) id = (k, v) :: eraseConn m id := by
        simp [eraseConn, List.filter_cons, hk]
      rw [he, lookupConn_cons, lookupConn_cons]
      by_cases hk' : k = id'
      · simp [hk']
      · rw [if_neg hk', if_neg hk']
        exact ih

/-! ### Teardown and reaper lemmas -/

theorem cleanupConnection_absent (id : String) (s : ServerState)
    (h : lookupConn s.activeConnections id = none) :
    cleanupConnection id s = s := by
  unfold cleanupConnection
  rw [h]

theorem cleanupConnection_activeConnections (id : String) (s : ServerState)
    (conn : Conn) (h : lookupConn s.activeConnections id = some conn) :
    (cleanupConnection id s).activeConnections =
      eraseConn s.activeConnections id := by
  unfold cleanupConnection
  rw [h]

theorem lookupConn_cleanupConnection_self (id : String) (s : ServerState) :
    lookupConn (cleanupConnection id s).activeConnections id = none := by
  cases hl : lookupConn s.activeConnections id with
  | none => rw [cleanupConnection_absent id s hl]; exact hl
  | some conn =>
    rw [cleanupConnection_activeConnections id s conn hl]
    exact lookupConn_eraseConn_self _ _

theorem lookupConn_cleanupConnection (id id' : String) (s : ServerState)
    (c' : Conn)
    (h : lookupConn (cleanupConnection id' s).activeConnections id = some c') :
    lookupConn s.activeConnections id = some c' := by
  by_cases hi : id = id'
  · subst hi
    rw [lookupConn_cleanupConnection_self] at h
    exact absurd h (by simp)
  · cases hl : lookupConn s.activeConnections id' with
    | none => rw [cleanupConnection_absent id' s hl] at h; exact h
    | some conn =>
      rw [cleanupConnection_activeConnections id' s conn hl] at h
      rw [lookupConn_eraseConn_ne _ _ _ hi] at h
      exact h

theorem lookupConn_foldl_cleanup (ids : List String) (s : ServerState)
    (id : String) (c' : Conn)
    (h : lookupConn
        ((ids.foldl (fun s i => cleanupConnection i s) s)).activeConnections id =
      some c') :
    lookupConn s.activeConnections id = some c' := by
  induction ids generalizing s with
  | nil => exact h
  | cons i ids ih =>
    rw [List.foldl_cons] at h
    exact lookupConn_cleanupConnection id i s c' (ih (cleanupConnection i s) h)

theorem lookupConn_reapInactive (now : Nat) (s : ServerState) (id : String)
    (c' : Conn)
    (h : lookupConn (reapInactive now s).activeConnections id = some c') :
    lookupConn s.activeConnections id = some c' := by
  unfold reapInactive at h
  exact lookupConn_foldl_cleanup _ s id c' h

/-! ### Which handlers can change a record's `connected` flag -/

theorem connected_handleGeminiOpen (model id' id : String) (s : ServerState)
    (c' : Conn)
    (h : lookupConn (handleGeminiOpen model id' s).activeConnections id = some c') :
    ∃ c, lookupConn s.activeConnections id = some c ∧
      c'.connected = c.connected := by
  unfold handleGeminiOpen at h
  cases hl : lookupConn s.activeConnections id' with
  | none => rw [hl] at h; exact ⟨c', h, rfl⟩
  | some conn =>
    rw [hl] at h
    simp only at h
    by_cases hi : id = id'
    · subst hi
      rw [lookupConn_setConn_self] at h
      cases h
      exact ⟨conn, hl, rfl⟩
    · rw [lookupConn_setConn_ne _ _ _ _ hi] at h
      exact ⟨c', h, rfl⟩

theorem connected_handleGeminiClose (id' id : String) (s : ServerState)
    (c' : Conn)
    (h : lookupConn (handleGeminiClose id' s).activeConnections id = some c') :
    ∃ c, lookupConn s.activeConnections id = some c ∧
      c'.connected = c.connected := by
  unfold handleGeminiClose at h
  cases hl : lookupConn s.activeConnections id' with
  | none => rw [hl] at h; exact ⟨c', h, rfl⟩
  | some conn =>
    rw [hl] at h
    simp only at h
    by_cases hi : id = id'
    · subst hi
      rw [lookupConn_setConn_self] at h
      cases h
      split <;> exact ⟨conn, hl, rfl⟩
    · rw [lookupConn_setConn_ne _ _ _ _ hi] at h
      exact ⟨c', h, rfl⟩

theorem connected_handleGeminiError (id' id : String) (s : ServerState)
    (c' : Conn)
    (h : lookupConn (handleGeminiError id' s).activeConnections id = some c') :
    ∃ c, lookupConn s.activeConnections id = some c ∧
      c'.connected = c.connected := by
  unfold handleGeminiError at h
  cases hl : lookupConn s.activeConnections id' with
  | none => rw [hl] at h; exact ⟨c', h, rfl⟩
  | some conn =>
    rw [hl] at h
    simp only at h
    split at h
    · by_cases hi : id = id'
      · subst hi
        rw [lookupConn_setConn_self] at h
        cases h
        exact ⟨conn, hl, rfl⟩
      · rw [lookupConn_setConn_ne _ _ _ _ hi] at h
        exact ⟨c', h, rfl⟩
    · exact ⟨c', h, rfl⟩

theorem connected_handleAudioInput (id' id : String) (data : List Nat)
    (now : Nat) (s : ServerState) (c' : Conn)
    (h : lookupConn (handleAudioInput id' data now s).activeConnections id =
      some c') :
    ∃ c, lookupConn s.activeConnections id = some c ∧
      c'.connected = c.connected := by
  unfold handleAudioInput at h
  cases hl : lookupConn s.activeConnections id' with
  | none => rw [hl] at h; exact ⟨c', h, rfl⟩
  | some conn =>
    rw [hl] at h
    simp only at h
    split at h
    · exact ⟨c', h, rfl⟩
    · split at h
      · exact ⟨c', h, rfl⟩
      · by_cases hi : id = id'
        · subst hi
          rw [lookupConn_setConn_self] at h
          cases h
          exact ⟨conn, hl, rfl⟩
        · rw [lookupConn_setConn_ne _ _ _ _ hi] at h
          exact ⟨c', h, rfl⟩

theorem connected_handleClientMessage (id' id : String) (msg : ClientMessage)
    (s : ServerState) (c' : Conn)
    (h : lookupConn (handleClientMessage id' msg s).activeConnections id =
      some c') :
    ∃ c, lookupConn s.activeConnections id = some c ∧
      c'.connected = c.connected := by
  unfold handleClientMessage at h
  cases hl : lookupConn s.activeConnections id' with
  | none => rw [hl] at h; exact ⟨c', h, rfl⟩
  | some conn =>
    rw [hl] at h
    simp only at h
    by_cases hi : id = id'
    · subst hi
      split at h
      · rw [lookupConn_setConn_self] at h
        cases h
        exact ⟨conn, hl, rfl⟩
      · split at h
        · split at h
          · rw [lookupConn_setConn_self] at h
            cases h
            exact ⟨conn, hl, rfl⟩
          · exact ⟨c', h, rfl⟩
        · split at h
          · split at h
            · rw [lookupConn_setConn_self] at h
              cases h
              exact ⟨conn, hl, rfl⟩
            · exact ⟨c', h, rfl⟩
          · exact ⟨c', h, rfl⟩
    · have hfix : ∀ x : Conn,
          lookupConn (setConn s.activeConnections id' x) id = lookupConn s.activeConnections id :=
        fun x => lookupConn_setConn_ne _ _ _ _ hi
      split at h
      · rw [hfix] at h; exact ⟨c', h, rfl⟩
      · split at h
        · split at h
          · rw [hfix] at h; exact ⟨c', h, rfl⟩
          · exact ⟨c', h, rfl⟩
        · split at h
          · split at h
            · rw [hfix] at h; exact ⟨c', h, rfl⟩
            · exact ⟨c', h, rfl⟩
          · exact ⟨c', h, rfl⟩

theorem forwardPart_connected (c : Conn) (p : TurnPart) :
    (forwardPart c p).connected = c.connected := by
  unfold forwardPart
  cases hp : p.inlineData with
  | none => rfl
  | some d =>
    obtain ⟨m, dt⟩ := d
    by_cases hm : m.startsWith "audio/" <;> simp [hm]

theorem foldl_forwardPart_connected (parts : List TurnPart) (c : Conn) :
    (parts.foldl forwardPart c).connected = c.connected := by
  induction parts generalizing c with
  | nil => rfl
  | cons p parts ih =>
    rw [List.foldl_cons, ih, forwardPart_connected]

theorem applyStatusSignals_connected (content : ServerContent) (c : Conn) :
    (applyStatusSignals content c).connected = c.connected := by
  unfold applyStatusSignals
  split <;> split <;> split <;> rfl

theorem applyServerContent_connected (content : ServerContent) (c : Conn) :
    (applyServerContent content c).connected = c.connected := by
  unfold applyServerContent
  rw [applyStatusSignals_connected]
  cases content.modelTurn with
  | none => rfl
  | some parts => exact foldl_forwardPart_connected parts c

theorem applySetupComplete_connected (id : String) (msg : GeminiMessage)
    (c : Conn) :
    (applySetupComplete id msg c).connected =
      (msg.setupComplete || c.connected) := by
  unfold applySetupComplete
  by_cases h : msg.setupComplete = true <;> simp [h]

theorem connected_handleGeminiMessage (id' id : String) (msg : GeminiMessage)
    (s : ServerState) (c' : Conn)
    (h : lookupConn (handleGeminiMessage id' msg s).activeConnections id =
      some c') :
    ∃ c, lookupConn s.activeConnections id = some c ∧
      (c'.connected = c.connected ∨
        (c'.connected = true ∧ id = id' ∧ msg.setupComplete = true)) := by
  unfold handleGeminiMessage at h
  cases hl : lookupConn s.activeConnections id' with
  | none => rw [hl] at h; exact ⟨c', h, Or.inl rfl⟩
  | some conn =>
    rw [hl] at h
    simp only at h
    split at h
    · exact ⟨c', h, Or.inl rfl⟩
    · by_cases hi : id = id'
      · subst hi
        rw [lookupConn_setConn_self] at h
        cases h
        refine ⟨conn, hl, ?_⟩
        have hfin : (match msg.serverContent with
            | none => applySetupComplete id msg conn
            | some content =>
              applyServerContent content (applySetupComplete id msg conn)).connected =
            (msg.setupComplete || conn.connected) := by
          cases msg.serverContent with
          | none => exact applySetupComplete_connected id msg conn
          | some content =>
            rw [applyServerContent_connected]
            exact applySetupComplete_connected id msg conn
        by_cases hsc : msg.setupComplete = true
        · exact Or.inr ⟨by rw [hfin, hsc]; rfl, rfl, hsc⟩
        · refine Or.inl ?_
          rw [hfin]
          simp [hsc]
      · rw [lookupConn_setConn_ne _ _ _ _ hi] at h
        exact ⟨c', h, Or.inl rfl⟩

/-! ### Audio-input handling -/

theorem handleAudioInput_not_ready (id : String) (data : List Nat) (now : Nat)
    (s : ServerState) (conn : Conn)
    (h : lookupConn s.activeConnections id = some conn)
    (hnr : conn.connected = false ∨ conn.geminiWs.readyState ≠ SockState.OPEN) :
    handleAudioInput id data now s = s := by
  unfold handleAudioInput
  rw [h]
  simp only
  rcases hnr with h1 | h2
  · rw [if_pos h1]
  · by_cases hc : conn.connected = false
    · rw [if_pos hc]
    · rw [if_neg hc, if_pos h2]

theorem handleAudioInput_forwards (id : String) (data : List Nat) (now : Nat)
    (s : ServerState) (conn : Conn)
    (h : lookupConn s.activeConnections id = some conn)
    (hc : conn.connected = true)
    (ho : conn.geminiWs.readyState = SockState.OPEN) :
    handleAudioInput id data now s =
      { s with
        activeConnections := setConn s.activeConnections id
          { conn with
            lastActivity := now
            geminiWs := conn.geminiWs.send
              (GeminiOut.realtimeAudio "audio/pcm" (base64encode data)) } } := by
  unfold handleAudioInput
  rw [h]
  simp only
  rw [if_neg (by simp [hc]), if_neg (by simp [ho])]

/-- C1: on a registered connection, a client binary audio frame received
while the record's ready flag (`connected`) is false or the upstream
socket is not open leaves the server state completely unchanged — in
particular nothing is sent on the upstream socket and the frame is not
queued anywhere. -/
theorem audio_dropped_before_ready (id : String) (data : List Nat) (now : Nat)
    (s : ServerState) (conn : Conn)
    (h : lookupConn s.activeConnections id = some conn)
    (hnr : conn.connected = false ∨ conn.geminiWs.readyState ≠ SockState.OPEN) :
    handleAudioInput id data now s = s :=
  handleAudioInput_not_ready id data now s conn h hnr

theorem audio_dropped_before_ready_witness :
    lookupConn state1.activeConnections "c1" = some connNotReady ∧
    connNotReady.connected = false ∧
    handleAudioInput "c1" [1, 2, 3] 99 state1 = state1 :=
  ⟨rfl, rfl,
    audio_dropped_before_ready "c1" [1, 2, 3] 99 state1 connNotReady rfl
      (Or.inl rfl)⟩

/-- C3 (as stated) is false on the code: `handleAudioInput` returns before
touching the record when the frame is dropped for not-ready, so on a
registered not-ready record with `lastActivity = 0` a frame received at
time 99 leaves the timestamp at 0 instead of updating it. -/
theorem lastActivity_not_updated_on_drop_cex :
    (lookupConn (handleAudioInput "c1" [1, 2, 3] 99 state1).activeConnections
        "c1").map Conn.lastActivity = some 0 ∧ (0 : Nat) ≠ 99 := by
  constructor
  · rfl
  · decide

/-- C3 amended: handling an inbound binary frame updates the record's
`lastActivity` to the receipt time exactly when the frame is forwarded
(record registered, ready, upstream socket open); a frame dropped because
the record is absent, not ready, or the upstream socket is not open leaves
the state — the timestamp included — unchanged. -/
theorem lastActivity_updated_iff_forwarded (id : String) (data : List Nat)
    (now : Nat) (s : ServerState) (conn : Conn)
    (h : lookupConn s.activeConnections id = some conn) :
    (conn.connected = true → conn.geminiWs.readyState = SockState.OPEN →
      (lookupConn (handleAudioInput id data now s).activeConnections id).map
        Conn.lastActivity = some now) ∧
    (conn.connected = false ∨ conn.geminiWs.readyState ≠ SockState.OPEN →
      handleAudioInput id data now s = s) := by
  constructor
  · intro hc ho
    rw [handleAudioInput_forwards id data now s conn h hc ho]
    simp only
    rw [lookupConn_setConn_self]
    rfl
  · intro hnr
    exact handleAudioInput_not_ready id data now s conn h hnr

theorem lastActivity_updated_iff_forwarded_witness :
    lookupConn state2.activeConnections "c1" = some connReady ∧
    connReady.connected = true ∧
    connReady.geminiWs.readyState = SockState.OPEN ∧
    (lookupConn (handleAudioInput "c1" [1, 2, 3] 77 state2).activeConnections
        "c1").map Conn.lastActivity = some 77 :=
  ⟨rfl, rfl, rfl,
    (lastActivity_updated_iff_forwarded "c1" [1, 2, 3] 77 state2 connReady
      rfl).1 rfl rfl⟩

/-! ### Teardown idempotence -/

/-- C6: connection teardown is idempotent — running `cleanupConnection`
twice on the same id equals running it once (so the upstream socket is
never closed a second time and no exception path exists), after one
teardown the id is gone from the registry (a record is removed at most
once), and teardown of an absent id changes nothing. -/
theorem cleanup_idempotent (id : String) (s : ServerState) :
    cleanupConnection id (cleanupConnection id s) = cleanupConnection id s ∧
    lookupConn (cleanupConnection id s).activeConnections id = none ∧
    (lookupConn s.activeConnections id = none → cleanupConnection id s = s) :=
  ⟨cleanupConnection_absent id _ (lookupConn_cleanupConnection_self id s),
   lookupConn_cleanupConnection_self id s,
   cleanupConnection_absent id s⟩

theorem cleanup_idempotent_witness :
    (cleanupConnection "c1" (cleanupConnection "c1" state2) =
        cleanupConnection "c1" state2 ∧
      lookupConn (cleanupConnection "c1" state2).activeConnections "c1" = none) ∧
    (lookupConn state0.activeConnections "c1" = none ∧
      cleanupConnection "c1" state0 = state0) :=
  ⟨⟨(cleanup_idempotent "c1" state2).1, (cleanup_idempotent "c1" state2).2.1⟩,
   ⟨rfl, (cleanup_idempotent "c1" state0).2.2 rfl⟩⟩

/-! ### Ping -/

/-- C9: `{type:"ping"}` on a registered connection appends exactly one
`pong` event to that client's socket, and the record's upstream socket —
its send log included — is unchanged, so no message goes upstream. -/
theorem ping_yields_one_pong (id : String) (s : ServerState) (conn : Conn)
    (h : lookupConn s.activeConnections id = some conn) :
    ∃ conn',
      lookupConn
          (handleClientMessage id { type := "ping" } s).activeConnections id =
        some conn' ∧
      conn'.clientWs.sent = conn.clientWs.sent ++ [ClientEvent.pong] ∧
      conn'.geminiWs = conn.geminiWs := by
  refine ⟨{ conn with clientWs := conn.clientWs.send ClientEvent.pong }, ?_, rfl, rfl⟩
  unfold handleClientMessage
  rw [h]
  simp only [if_true]
  exact lookupConn_setConn_self _ _ _

theorem ping_yields_one_pong_witness :
    lookupConn state2.activeConnections "c1" = some connReady ∧
    (∃ conn',
      lookupConn
          (handleClientMessage "c1" { type := "ping" } state2).activeConnections
          "c1" = some conn' ∧
      conn'.clientWs.sent = connReady.clientWs.sent ++ [ClientEvent.pong] ∧
      conn'.geminiWs = connReady.geminiWs) :=
  ⟨rfl, ping_yields_one_pong "c1" state2 connReady rfl⟩

/-! ### Missing-credential behaviour -/

/-- C4: with no upstream credential configured, opening a session sends
exactly one configuration-error event to the (open) client socket, leaves
that socket open, and returns the server state untouched — so no upstream
socket is created and no registry entry appears; the connection lives on
(non-functional) until something else closes it. -/
theorem missing_key_reports_once (id : String) (ws : Socket ClientEvent)
    (now : Nat) (s : ServerState)
    (hopen : ws.readyState = SockState.OPEN) :
    (initializeGeminiSession none id ws now s).1.sent =
        ws.sent ++ [ClientEvent.errorMsg missingKeyMessage] ∧
    (initializeGeminiSession none id ws now s).1.readyState = SockState.OPEN ∧
    (initializeGeminiSession none id ws now s).2 = s := by
  refine ⟨?_, ?_, ?_⟩ <;> simp [initializeGeminiSession, hopen, Socket.send]

theorem missing_key_reports_once_witness :
    wsOpen.readyState = SockState.OPEN ∧
    (initializeGeminiSession none "c9" wsOpen 5 state0).1.sent =
        wsOpen.sent ++ [ClientEvent.errorMsg missingKeyMessage] ∧
    (initializeGeminiSession none "c9" wsOpen 5 state0).2 = state0 :=
  ⟨rfl, (missing_key_reports_once "c9" wsOpen 5 state0 rfl).1,
    (missing_key_reports_once "c9" wsOpen 5 state0 rfl).2.2⟩

/-- C5: with no upstream credential, the connection is never registered:
session initialisation leaves the server state untouched and the id
absent; the id appears in no stats snapshot entry; every subsequent typed
client message and every binary audio frame from that id is a complete
no-op (no reply, no upstream traffic); and the idle reaper never examines
the id. -/
theorem missing_key_connection_inert (id : String) (ws : Socket ClientEvent)
    (now : Nat) (s : ServerState)
    (h : lookupConn s.activeConnections id = none) :
    (initializeGeminiSession none id ws now s).2 = s ∧
    lookupConn
        ((initializeGeminiSession none id ws now s).2).activeConnections id =
      none ∧
    (∀ p ∈ statsSnapshot s, p.1 ≠ id) ∧
    (∀ m : ClientMessage, handleClientMessage id m s = s) ∧
    (∀ data : List Nat, ∀ t : Nat, handleAudioInput id data t s = s) ∧
    (∀ t : Nat, id ∉ staleIds t s) := by
  have hkeys : ∀ p ∈ s.activeConnections, p.1 ≠ id :=
    (lookupConn_eq_none_iff _ _).mp h
  refine ⟨rfl, h, ?_, ?_, ?_, ?_⟩
  · intro p hp
    obtain ⟨q, hq, rfl⟩ := List.mem_map.mp hp
    exact hkeys q hq
  · intro m
    unfold handleClientMessage
    rw [h]
  · intro data t
    unfold handleAudioInput
    rw [h]
  · intro t hmem
    obtain ⟨q, hq, hq1⟩ := List.mem_map.mp hmem
    exact hkeys q (List.mem_of_mem_filter hq) hq1

theorem missing_key_connection_inert_witness :
    lookupConn state2.activeConnections "c9" = none ∧
    (initializeGeminiSession none "c9" wsOpen 5 state2).2 = state2 ∧
    handleClientMessage "c9" { type := "ping" } state2 = state2 ∧
    handleAudioInput "c9" [1, 2] 3 state2 = state2 ∧
    "c9" ∉ staleIds 10 state2 := by
  have hmain := missing_key_connection_inert "c9" wsOpen 5 state2 rfl
  exact ⟨rfl, hmain.1, hmain.2.2.2.1 _, hmain.2.2.2.2.1 [1, 2] 3,
    hmain.2.2.2.2.2 10⟩

/-! ### Ordered forwarding of audio frames -/

/-- C7: once the record is ready and the upstream socket open, a sequence
of N client binary frames produces exactly N audio-input envelopes on the
upstream socket, each carrying the base64 encoding of its frame's bytes,
appended in the order the frames were received. -/
theorem frames_forwarded_in_order (id : String)
    (frames : List (List Nat × Nat)) (s : ServerState) (conn : Conn)
    (h : lookupConn s.activeConnections id = some conn)
    (hc : conn.connected = true)
    (ho : conn.geminiWs.readyState = SockState.OPEN) :
    ∃ conn',
      lookupConn (processAudioFrames id frames s).activeConnections id =
        some conn' ∧
      conn'.geminiWs.sent = conn.geminiWs.sent ++
        frames.map
          (fun fd => GeminiOut.realtimeAudio "audio/pcm" (base64encode fd.1)) := by
  induction frames generalizing s conn with
  | nil => exact ⟨conn, by simpa [processAudioFrames] using h, by simp⟩
  | cons fd frames ih =>
    have hstep := handleAudioInput_forwards id fd.1 fd.2 s conn h hc ho
    have hl1 : lookupConn
        (handleAudioInput id fd.1 fd.2 s).activeConnections id =
        some { conn with
          lastActivity := fd.2
          geminiWs := conn.geminiWs.send
            (GeminiOut.realtimeAudio "audio/pcm" (base64encode fd.1)) } := by
      rw [hstep]
      exact lookupConn_setConn_self _ _ _
    obtain ⟨conn', hl', hs'⟩ :=
      ih (handleAudioInput id fd.1 fd.2 s) _ hl1 hc ho
    refine ⟨conn', ?_, ?_⟩
    · simpa [processAudioFrames, List.foldl_cons] using hl'
    · rw [hs']
      simp [Socket.send, List.append_assoc]

theorem frames_forwarded_in_order_witness :
    lookupConn state2.activeConnections "c1" = some connReady ∧
    connReady.connected = true ∧
    connReady.geminiWs.readyState = SockState.OPEN ∧
    (∃ conn',
      lookupConn
          (processAudioFrames "c1" [([1], 10), ([2, 3], 20)] state2).activeConnections
          "c1" = some conn' ∧
      conn'.geminiWs.sent = connReady.geminiWs.sent ++
        [GeminiOut.realtimeAudio "audio/pcm" (base64encode [1]),
         GeminiOut.realtimeAudio "audio/pcm" (base64encode [2, 3])]) :=
  ⟨rfl, rfl, rfl,
    frames_forwarded_in_order "c1" [([1], 10), ([2, 3], 20)] state2 connReady
      rfl rfl rfl⟩

/-! ### Generation-status signals -/

theorem handleGeminiMessage_statusOnly (id : String) (s : ServerState)
    (conn : Conn) (g i t : Bool)
    (h : lookupConn s.activeConnections id = some conn)
    (hopen : conn.clientWs.readyState = SockState.OPEN) :
    handleGeminiMessage id
        { setupComplete := false
          serverContent := some
            { modelTurn := none, generationComplete := g
              interrupted := i, turnComplete := t } } s =
      { s with
        activeConnections := setConn s.activeConnections id
          (applyStatusSignals
            { modelTurn := none, generationComplete := g
              interrupted := i, turnComplete := t } conn) } := by
  unfold handleGeminiMessage
  rw [h]
  simp only
  rw [if_neg (by simp [hopen])]
  simp [applySetupComplete, applyServerContent]

theorem applyStatusSignals_gen (conn : Conn) :
    applyStatusSignals
        { modelTurn := none, generationComplete := true
          interrupted := false, turnComplete := false } conn =
      { conn with
        isGenerating := false
        clientWs := conn.clientWs.send ClientEvent.generationComplete } := by
  simp [applyStatusSignals]

theorem applyStatusSignals_int (conn : Conn) :
    applyStatusSignals
        { modelTurn := none, generationComplete := false
          interrupted := true, turnComplete := false } conn =
      { conn with
        isGenerating := false
        clientWs := conn.clientWs.send ClientEvent.interrupted } := by
  simp [applyStatusSignals]

theorem applyStatusSignals_turn (conn : Conn) :
    applyStatusSignals
        { modelTurn := none, generationComplete := false
          interrupted := false, turnComplete := true } conn =
      { conn with
        isGenerating := false
        clientWs := conn.clientWs.send ClientEvent.turnComplete } := by
  simp [applyStatusSignals]

/-- C8: an upstream that emits `generationComplete`, then `interrupted`,
then `turnComplete` makes the server send exactly the three distinct
client events `generation_complete`, `interrupted`, `turn_complete`, in
that order, and the record's `generating` flag is false after each. -/
theorem status_signals_in_order (id : String) (s : ServerState) (conn : Conn)
    (h : lookupConn s.activeConnections id = some conn)
    (hopen : conn.clientWs.readyState = SockState.OPEN) :
    ∃ c1 c2 c3,
      lookupConn
          (handleGeminiMessage id genCompleteMsg s).activeConnections id =
        some c1 ∧
      c1.clientWs.sent =
        conn.clientWs.sent ++ [ClientEvent.generationComplete] ∧
      c1.isGenerating = false ∧
      lookupConn
          (handleGeminiMessage id interruptedMsg
            (handleGeminiMessage id genCompleteMsg s)).activeConnections id =
        some c2 ∧
      c2.clientWs.sent = conn.clientWs.sent ++
        [ClientEvent.generationComplete, ClientEvent.interrupted] ∧
      c2.isGenerating = false ∧
      lookupConn
          (handleGeminiMessage id turnCompleteMsg
            (handleGeminiMessage id interruptedMsg
              (handleGeminiMessage id genCompleteMsg s))).activeConnections id =
        some c3 ∧
      c3.clientWs.sent = conn.clientWs.sent ++
        [ClientEvent.generationComplete, ClientEvent.interrupted,
          ClientEvent.turnComplete] ∧
      c3.isGenerating = false := by
  have h1 : handleGeminiMessage id genCompleteMsg s =
      { s with
        activeConnections := setConn s.activeConnections id
          { conn with
            isGenerating := false
            clientWs := conn.clientWs.send ClientEvent.generationComplete } } := by
    rw [show genCompleteMsg =
      { setupComplete := false
        serverContent := some
          { modelTurn := none, generationComplete := true
            interrupted := false, turnComplete := false } } from rfl]
    rw [handleGeminiMessage_statusOnly id s conn true false false h hopen,
      applyStatusSignals_gen]
  have hl1 : lookupConn
      (handleGeminiMessage id genCompleteMsg s).activeConnections id =
      some { conn with
        isGenerating := false
        clientWs := conn.clientWs.send ClientEvent.generationComplete } := by
    rw [h1]
    exact lookupConn_setConn_self _ _ _
  have h2 : handleGeminiMessage id interruptedMsg
      (handleGeminiMessage id genCompleteMsg s) =
      { handleGeminiMessage id genCompleteMsg s with
        activeConnections := setConn
          (handleGeminiMessage id genCompleteMsg s).activeConnections id
          { conn with
            isGenerating := false
            clientWs := (conn.clientWs.send ClientEvent.generationComplete).send
              ClientEvent.interrupted } } := by
    rw [show interruptedMsg =
      { setupComplete := false
        serverContent := some
          { modelTurn := none, generationComplete := false
            interrupted := true, turnComplete := false } } from rfl]
    rw [handleGeminiMessage_statusOnly id _ _ false true false hl1 hopen,
      applyStatusSignals_int]
  have hl2 : lookupConn
      (handleGeminiMessage id interruptedMsg
        (handleGeminiMessage id genCompleteMsg s)).activeConnections id =
      some { conn with
        isGenerating := false
        clientWs := (conn.clientWs.send ClientEvent.generationComplete).send
          ClientEvent.interrupted } := by
    rw [h2]
    exact lookupConn_setConn_self _ _ _
  have h3 : handleGeminiMessage id turnCompleteMsg
      (handleGeminiMessage id interruptedMsg
        (handleGeminiMessage id genCompleteMsg s)) =
      { handleGeminiMessage id interruptedMsg
          (handleGeminiMessage id genCompleteMsg s) with
        activeConnections := setConn
          (handleGeminiMessage id interruptedMsg
            (handleGeminiMessage id genCompleteMsg s)).activeConnections id
          { conn with
            isGenerating := false
            clientWs := ((conn.clientWs.send ClientEvent.generationComplete).send
              ClientEvent.interrupted).send ClientEvent.turnComplete } } := by
    rw [show turnCompleteMsg =
      { setupComplete := false
        serverContent := some
          { modelTurn := none, generationComplete := false
            interrupted := false, turnComplete := true } } from rfl]
    rw [handleGeminiMessage_statusOnly id _ _ false false true hl2 hopen,
      applyStatusSignals_turn]
  have hl3 : lookupConn
      (handleGeminiMessage id turnCompleteMsg
        (handleGeminiMessage id interruptedMsg
          (handleGeminiMessage id genCompleteMsg s))).activeConnections id =
      some { conn with
        isGenerating := false
        clientWs := ((conn.clientWs.send ClientEvent.generationComplete).send
          ClientEvent.interrupted).send ClientEvent.turnComplete } := by
    rw [h3]
    exact lookupConn_setConn_self _ _ _
  refine ⟨_, _, _, hl1, ?_, rfl, hl2, ?_, rfl, hl3, ?_, rfl⟩ <;>
    simp [Socket.send]

theorem status_signals_in_order_witness :
    lookupConn state2.activeConnections "c1" = some connReady ∧
    connReady.clientWs.readyState = SockState.OPEN ∧
    (∃ c1 c2 c3,
      lookupConn
          (handleGeminiMessage "c1" genCompleteMsg state2).activeConnections
          "c1" = some c1 ∧
      c1.clientWs.sent =
        connReady.clientWs.sent ++ [ClientEvent.generationComplete] ∧
      c1.isGenerating = false ∧
      lookupConn
          (handleGeminiMessage "c1" interruptedMsg
            (handleGeminiMessage "c1" genCompleteMsg state2)).activeConnections
          "c1" = some c2 ∧
      c2.clientWs.sent = connReady.clientWs.sent ++
        [ClientEvent.generationComplete, ClientEvent.interrupted] ∧
      c2.isGenerating = false ∧
      lookupConn
          (handleGeminiMessage "c1" turnCompleteMsg
            (handleGeminiMessage "c1" interruptedMsg
              (handleGeminiMessage "c1" genCompleteMsg
                state2))).activeConnections "c1" = some c3 ∧
      c3.clientWs.sent = connReady.clientWs.sent ++
        [ClientEvent.generationComplete, ClientEvent.interrupted,
          ClientEvent.turnComplete] ∧
      c3.isGenerating = false) :=
  ⟨rfl, rfl, status_signals_in_order "c1" state2 connReady rfl rfl⟩

/-! ### The ready-flag lifecycle -/

theorem initializeGeminiSession_some (apiKey : String) (id : String)
    (ws : Socket ClientEvent) (now : Nat) (s : ServerState) :
    (initializeGeminiSession (some apiKey) id ws now s).2 =
      { s with
        activeConnections := setConn s.activeConnections id
          { clientWs := ws
            geminiWs := { readyState := SockState.CONNECTING, sent := [] }
            connected := false
            lastActivity := now
            isGenerating := false }
        geminiSocketsCreated := s.geminiSocketsCreated + 1 } := rfl

/-- C2: a record's ready flag (`connected`) is false immediately after
registration; while the record lives (no fresh registration reuses its
id) the flag never reverts from true to false under any server event; and
the only event that can turn it from false to true is an upstream message
carrying `setupComplete` for that connection — together: the flag
transitions false→true exactly once, on the setup-complete signal. -/
theorem ready_flag_lifecycle (id apiKey : String) (ws : Socket ClientEvent)
    (now : Nat) (s : ServerState) (e : Event) (c c' : Conn) :
    ((lookupConn
        ((initializeGeminiSession (some apiKey) id ws now s).2).activeConnections
        id).map Conn.connected = some false) ∧
    (lookupConn s.activeConnections id = some c → c.connected = true →
      (∀ k w n, e ≠ Event.newConnection id k w n) →
      lookupConn (step s e).activeConnections id = some c' →
      c'.connected = true) ∧
    (lookupConn s.activeConnections id = some c → c.connected = false →
      lookupConn (step s e).activeConnections id = some c' →
      c'.connected = true →
      ∃ m, e = Event.geminiMsg id m ∧ m.setupComplete = true) := by
  refine ⟨?_, ?_, ?_⟩
  · rw [initializeGeminiSession_some]
    simp only
    rw [lookupConn_setConn_self]
    rfl
  · intro h hc hfresh h'
    cases e with
    | newConnection id' k w n =>
      cases k with
      | none =>
        have hs : step s (Event.newConnection id' none w n) = s := rfl
        rw [hs, h] at h'
        cases h'
        exact hc
      | some key =>
        by_cases hi : id = id'
        · subst hi
          exact absurd rfl (hfresh (some key) w n)
        · have hs : step s (Event.newConnection id' (some key) w n) =
              (initializeGeminiSession (some key) id' w n s).2 := rfl
          rw [hs, initializeGeminiSession_some] at h'
          simp only at h'
          rw [lookupConn_setConn_ne _ _ _ _ hi, h] at h'
          cases h'
          exact hc
    | geminiOpen model id' =>
      obtain ⟨c0, h0, hcc⟩ := connected_handleGeminiOpen model id' id s c' h'
      rw [h] at h0
      cases h0
      rw [hcc]
      exact hc
    | geminiMsg id' m =>
      obtain ⟨c0, h0, hdisj⟩ := connected_handleGeminiMessage id' id m s c' h'
      rw [h] at h0
      cases h0
      rcases hdisj with hcc | ⟨hct, _, _⟩
      · rw [hcc]; exact hc
      · exact hct
    | geminiClose id' =>
      obtain ⟨c0, h0, hcc⟩ := connected_handleGeminiClose id' id s c' h'
      rw [h] at h0
      cases h0
      rw [hcc]
      exact hc
    | geminiError id' =>
      obtain ⟨c0, h0, hcc⟩ := connected_handleGeminiError id' id s c' h'
      rw [h] at h0
      cases h0
      rw [hcc]
      exact hc
    | clientAudio id' d n =>
      obtain ⟨c0, h0, hcc⟩ := connected_handleAudioInput id' id d n s c' h'
      rw [h] at h0
      cases h0
      rw [hcc]
      exact hc
    | clientMsg id' m =>
      obtain ⟨c0, h0, hcc⟩ := connected_handleClientMessage id' id m s c' h'
      rw [h] at h0
      cases h0
      rw [hcc]
      exact hc
    | clientClose id' =>
      have h0 := lookupConn_cleanupConnection id id' s c' h'
      rw [h] at h0
      cases h0
      exact hc
    | reap n =>
      have h0 := lookupConn_reapInactive n s id c' h'
      rw [h] at h0
      cases h0
      exact hc
  · intro h hc0 h' hc'
    cases e with
    | newConnection id' k w n =>
      cases k with
      | none =>
        have hs : step s (Event.newConnection id' none w n) = s := rfl
        rw [hs, h] at h'
        cases h'
        rw [hc0] at hc'
        exact absurd hc' (by decide)
      | some key =>
        by_cases hi : id = id'
        · subst hi
          have hs : step s (Event.newConnection id (some key) w n) =
              (initializeGeminiSession (some key) id w n s).2 := rfl
          rw [hs, initializeGeminiSession_some] at h'
          simp only at h'
          rw [lookupConn_setConn_self] at h'
          cases h'
          simp at hc'
        · have hs : step s (Event.newConnection id' (some key) w n) =
              (initializeGeminiSession (some key) id' w n s).2 := rfl
          rw [hs, initializeGeminiSession_some] at h'
          simp only at h'
          rw [lookupConn_setConn_ne _ _ _ _ hi, h] at h'
          cases h'
          rw [hc0] at hc'
          exact absurd hc' (by decide)
    | geminiOpen model id' =>
      obtain ⟨c0, h0, hcc⟩ := connected_handleGeminiOpen model id' id s c' h'
      rw [h] at h0
      cases h0
      rw [hcc, hc0] at hc'
      exact absurd hc' (by decide)
    | geminiMsg id' m =>
      obtain ⟨c0, h0, hdisj⟩ := connected_handleGeminiMessage id' id m s c' h'
      rw [h] at h0
      cases h0
      rcases hdisj with hcc | ⟨_, hid, hsc⟩
      · rw [hcc, hc0] at hc'
        exact absurd hc' (by decide)
      · subst hid
        exact ⟨m, rfl, hsc⟩
    | geminiClose id' =>
      obtain ⟨c0, h0, hcc⟩ := connected_handleGeminiClose id' id s c' h'
      rw [h] at h0
      cases h0
      rw [hcc, hc0] at hc'
      exact absurd hc' (by decide)
    | geminiError id' =>
      obtain ⟨c0, h0, hcc⟩ := connected_handleGeminiError id' id s c' h'
      rw [h] at h0
      cases h0
      rw [hcc, hc0] at hc'
      exact absurd hc' (by decide)
    | clientAudio id' d n =>
      obtain ⟨c0, h0, hcc⟩ := connected_handleAudioInput id' id d n s c' h'
      rw [h] at h0
      cases h0
      rw [hcc, hc0] at hc'
      exact absurd hc' (by decide)
    | clientMsg id' m =>
      obtain ⟨c0, h0, hcc⟩ := connected_handleClientMessage id' id m s c' h'
      rw [h] at h0
      cases h0
      rw [hcc, hc0] at hc'
      exact absurd hc' (by decide)
    | clientClose id' =>
      have h0 := lookupConn_cleanupConnection id id' s c' h'
      rw [h] at h0
      cases h0
      rw [hc0] at hc'
      exact absurd hc' (by decide)
    | reap n =>
      have h0 := lookupConn_reapInactive n s id c' h'
      rw [h] at h0
      cases h0
      rw [hc0] at hc'
      exact absurd hc' (by decide)

theorem ready_flag_lifecycle_witness :
    ((lookupConn
        ((initializeGeminiSession (some "key") "c1" wsOpen 5
          state0).2).activeConnections "c1").map Conn.connected = some false) ∧
    (∃ c', lookupConn
        (step state2 (Event.clientMsg "c1" { type := "ping" })).activeConnections
        "c1" = some c' ∧ c'.connected = true) ∧
    (∃ m, Event.geminiMsg "c1" setupCompleteMsg = Event.geminiMsg "c1" m ∧
      m.setupComplete = true) := by
  have hl : lookupConn
      (step state2 (Event.clientMsg "c1" { type := "ping" })).activeConnections
      "c1" =
      some { connReady with clientWs := connReady.clientWs.send ClientEvent.pong } :=
    rfl
  have hmono := (ready_flag_lifecycle "c1" "key" wsOpen 5 state2
      (Event.clientMsg "c1" { type := "ping" }) connReady
      { connReady with
        clientWs := connReady.clientWs.send ClientEvent.pong }).2.1
      rfl rfl (fun k w n hne => Event.noConfusion hne) hl
  have htrig := (ready_flag_lifecycle "c1" "key" wsOpen 5 state1
      (Event.geminiMsg "c1" setupCompleteMsg) connNotReady
      { connNotReady with
        connected := true
        clientWs := connNotReady.clientWs.send
          (ClientEvent.connectionStatus "connected" (some "c1") none) }).2.2
      rfl rfl rfl rfl
  exact ⟨(ready_flag_lifecycle "c1" "key" wsOpen 5 state0 (Event.reap 0)
      connReady connReady).1, ⟨_, hl, hmono⟩, htrig⟩

/-! ### Connection-id generation -/

theorem decDigitChar_toNat (d : Nat) (h : d < 10) :
    (decDigitChar d).toNat = 48 + d := by
  interval_cases d <;> rfl

theorem map_decDigitChar_inj : ∀ (l1 l2 : List Nat),
    (∀ x ∈ l1, x < 10) → (∀ x ∈ l2, x < 10) →
    l1.map decDigitChar = l2.map decDigitChar → l1 = l2
  | [], [], _, _, _ => rfl
  | [], _ :: _, _, _, h => by simp at h
  | _ :: _, [], _, _, h => by simp at h
  | a :: l1, b :: l2, h1, h2, h => by
    simp only [List.map_cons, List.cons.injEq] at h
    have ha := h1 a (List.mem_cons_self a l1)
    have hb := h2 b (List.mem_cons_self b l2)
    have hab : a = b := by
      have ht := congrArg Char.toNat h.1
      rw [decDigitChar_toNat a ha, decDigitChar_toNat b hb] at ht
      omega
    have hrest := map_decDigitChar_inj l1 l2
      (fun x hx => h1 x (List.mem_cons_of_mem a hx))
      (fun x hx => h2 x (List.mem_cons_of_mem b hx)) h.2
    rw [hab, hrest]

theorem natToDecimal_inj (t1 t2 : Nat) (h : natToDecimal t1 = natToDecimal t2) :
    t1 = t2 := by
  unfold natToDecimal at h
  have hd : (Nat.digits 10 t1).reverse = (Nat.digits 10 t2).reverse :=
    map_decDigitChar_inj _ _
      (fun x hx => Nat.digits_lt_base (by norm_num) (List.mem_reverse.mp hx))
      (fun x hx => Nat.digits_lt_base (by norm_num) (List.mem_reverse.mp hx)) h
  have hd2 : Nat.digits 10 t1 = Nat.digits 10 t2 := by
    have := congrArg List.reverse hd
    simpa using this
  exact Nat.digits_inj_iff.mp hd2

theorem hexDigitChar_toNat (d : Nat) (h : d < 16) :
    (hexDigitChar d).toNat = if d < 10 then 48 + d else 87 + d := by
  interval_cases d <;> rfl

theorem hexDigitChar_inj (a b : Nat) (ha : a < 16) (hb : b < 16)
    (h : hexDigitChar a = hexDigitChar b) : a = b := by
  have ht := congrArg Char.toNat h
  rw [hexDigitChar_toNat a ha, hexDigitChar_toNat b hb] at ht
  split at ht <;> split at ht <;> omega

theorem bytesToHex_cons (a : Nat) (l : List Nat) :
    bytesToHex (a :: l) =
      hexDigitChar (a / 16 % 16) :: hexDigitChar (a % 16) :: bytesToHex l := by
  simp [bytesToHex, byteToHex]

theorem bytesToHex_length (l : List Nat) :
    (bytesToHex l).length = 2 * l.length := by
  induction l with
  | nil => rfl
  | cons a l ih =>
    rw [bytesToHex_cons]
    simp only [List.length_cons, ih]
    omega

theorem bytesToHex_inj : ∀ (l1 l2 : List Nat), l1.length = l2.length →
    (∀ x ∈ l1, x < 256) → (∀ x ∈ l2, x < 256) →
    bytesToHex l1 = bytesToHex l2 → l1 = l2
  | [], [], _, _, _, _ => rfl
  | [], _ :: _, hlen, _, _, _ => by simp at hlen
  | _ :: _, [], hlen, _, _, _ => by simp at hlen
  | a :: l1, b :: l2, hlen, h1, h2, h => by
    rw [bytesToHex_cons, bytesToHex_cons] at h
    simp only [List.cons.injEq] at h
    obtain ⟨hhi, hlo, hrest⟩ := h
    have ha := h1 a (List.mem_cons_self a l1)
    have hb := h2 b (List.mem_cons_self b l2)
    have e1 := hexDigitChar_inj _ _ (Nat.mod_lt _ (by norm_num))
      (Nat.mod_lt _ (by norm_num)) hhi
    have e2 := hexDigitChar_inj _ _ (Nat.mod_lt _ (by norm_num))
      (Nat.mod_lt _ (by norm_num)) hlo
    have hab : a = b := by omega
    have htail := bytesToHex_inj l1 l2 (by simpa using hlen)
      (fun x hx => h1 x (List.mem_cons_of_mem a hx))
      (fun x hx => h2 x (List.mem_cons_of_mem b hx)) hrest
    rw [hab, htail]

/-- C10 (as stated) is false on the code: connection ids are built from
the millisecond clock and four random bytes only, so two different
connections of one process lifetime whose environment supplies the same
`Date.now()` value and the same `crypto.randomBytes(4)` draw receive the
very same id (connections number 0 and 1 here). -/
theorem connection_id_collision_cex :
    connectionIdOf (fun _ => (1000, [0, 0, 0, 0])) 0 =
      connectionIdOf (fun _ => (1000, [0, 0, 0, 0])) 1 ∧ (0 : Nat) ≠ 1 :=
  ⟨rfl, by decide⟩

/-- C10 amended: `generateConnectionId` is injective on its inputs — two
connections receive distinct ids whenever their (timestamp, random-bytes)
draws differ; only a simultaneous repeat of both the millisecond timestamp
and the four random bytes can collide. -/
theorem generateConnectionId_inj (t1 t2 : Nat) (b1 b2 : List Nat)
    (hb1 : b1.length = 4) (hb2 : b2.length = 4)
    (hlt1 : ∀ x ∈ b1, x < 256) (hlt2 : ∀ x ∈ b2, x < 256)
    (h : generateConnectionId t1 b1 = generateConnectionId t2 b2) :
    t1 = t2 ∧ b1 = b2 := by
  have hdata : ("conn_".data ++ natToDecimal t1) ++ ('_' :: bytesToHex b1) =
      ("conn_".data ++ natToDecimal t2) ++ ('_' :: bytesToHex b2) :=
    congrArg String.data h
  rw [List.append_assoc, List.append_assoc] at hdata
  have hmid := List.append_cancel_left hdata
  have hlen : ('_' :: bytesToHex b1).length = ('_' :: bytesToHex b2).length := by
    simp [bytesToHex_length, hb1, hb2]
  obtain ⟨hdec, hcons⟩ := List.append_inj' hmid hlen
  have hhex : bytesToHex b1 = bytesToHex b2 := by
    injection hcons
  exact ⟨natToDecimal_inj t1 t2 hdec,
    bytesToHex_inj b1 b2 (by rw [hb1, hb2]) hlt1 hlt2 hhex⟩

theorem generateConnectionId_inj_witness :
    ([5, 6, 7, 8] : List Nat).length = 4 ∧
    (∀ x ∈ ([5, 6, 7, 8] : List Nat), x < 256) ∧
    generateConnectionId 1000 [5, 6, 7, 8] =
      generateConnectionId 1000 [5, 6, 7, 8] ∧
    ((1000 : Nat) = 1000 ∧ ([5, 6, 7, 8] : List Nat) = [5, 6, 7, 8]) :=
  ⟨rfl, by decide, rfl,
    generateConnectionId_inj 1000 1000 [5, 6, 7, 8] [5, 6, 7, 8]
      rfl rfl (by decide) (by decide) rfl⟩

end RevoltRelay
